import Mathlib

/-! # Verification of the Garmin activity summary generator

Shallow embedding of `generate_summary.py`: the locale-aware number
parser, the duration parser, the number/time formatters, and the
aggregation stage, together with proofs about their specified behaviour.

Modelling conventions:
* Python's fallible conversions `int(...)` and `float(...)` are modelled
  by `Option`-valued functions; a `try/except` block that substitutes
  zero is modelled by returning zero in the `none` case.
* Machine floating point is modelled by `ℚ`; every value occurring in
  the verified statements is exactly representable.
* Strings are processed through their character lists; single-character
  `str.replace`/`str.split`/`str.strip` calls are modelled by the
  corresponding list operations.
* The tabular (pandas) layer is modelled by lists of rows; the
  `IndexError` raised by the most-frequent-activity lookup on an empty
  frame is modelled by an `Option`-valued aggregation result.
-/

namespace Garmin

/-- The double-quote character (Python strips it from cell text). -/
def quoteChar : Char := Char.ofNat 34

/-- The no-break-space character U+00A0, removed as a thousands separator. -/
def nbsp : Char := Char.ofNat 160

/-- Decimal value of a list of digit characters (most significant first). -/
def natOfDigits (cs : List Char) : Nat :=
  cs.foldl (fun a c => a * 10 + (c.toNat - 48)) 0

/-- Conversion of an unsigned decimal string: `some` of its value when the
character list is nonempty and all digits, otherwise `none`. -/
def digitsVal? (cs : List Char) : Option Nat :=
  if !cs.isEmpty && cs.all Char.isDigit then some (natOfDigits cs) else none

/-- Models Python `int(s)`: an optional sign followed by digits; `none`
models a raised `ValueError`. -/
def pyIntOfList (cs : List Char) : Option Int :=
  match cs with
  | '-' :: rest => (digitsVal? rest).map (fun n => -(n : Int))
  | '+' :: rest => (digitsVal? rest).map (fun n => (n : Int))
  | _ => (digitsVal? cs).map (fun n => (n : Int))

/-- Models Python `str.split(sep)` for a single-character separator. -/
def splitOnChar (sep : Char) : List Char → List (List Char)
  | [] => [[]]
  | c :: cs =>
    if c = sep then [] :: splitOnChar sep cs
    else
      match splitOnChar sep cs with
      | [] => [[c]]
      | g :: gs => (c :: g) :: gs

/-- Models Python `float` on an unsigned decimal literal: digits with at
most one decimal point and at least one digit overall. -/
def pyFloatUnsigned (cs : List Char) : Option ℚ :=
  match splitOnChar '.' cs with
  | [ip] => (digitsVal? ip).map (fun n => (n : ℚ))
  | [ip, fp] =>
    if ip.isEmpty && fp.isEmpty then none
    else if ip.all Char.isDigit && fp.all Char.isDigit then
      some ((natOfDigits ip : ℚ) + (natOfDigits fp : ℚ) / (10 : ℚ) ^ fp.length)
    else none
  | _ => none

/-- Models Python `float(s)` for decimal literals (optional sign, optional
single decimal point; exponent forms and specials do not occur in the
verified inputs and are not modelled); `none` models a `ValueError`. -/
def pyFloatOfList (cs : List Char) : Option ℚ :=
  match cs with
  | '-' :: rest => (pyFloatUnsigned rest).map (fun q => -q)
  | '+' :: rest => pyFloatUnsigned rest
  | _ => pyFloatUnsigned cs

/-- Models Python `str.strip(ch)`: removes every leading and trailing
occurrence of the character. -/
def stripChar (ch : Char) (cs : List Char) : List Char :=
  ((cs.dropWhile (fun c => c = ch)).reverse.dropWhile (fun c => c = ch)).reverse

/-- The segment list `time_str.strip(quote).replace(".", ":").split(":")`
computed at the top of `parse_time_to_seconds`. -/
def timeParts (s : String) : List (List Char) :=
  splitOnChar ':' ((stripChar quoteChar s.data).map (fun c => if c = '.' then ':' else c))

/-- Combines `int(parts[0])`, `int(parts[1])`, `float(parts[2])` into
seconds; any failed conversion lands in the `except` branch, which
returns zero. -/
def hmsVal (oh om : Option Int) (os : Option ℚ) : ℚ :=
  match oh, om, os with
  | some h, some m, some s => (h : ℚ) * 3600 + (m : ℚ) * 60 + s
  | _, _, _ => 0

/-- Combines `int(parts[0])`, `float(parts[1])` into seconds for the
two-segment form; a failed conversion returns zero. -/
def msVal (om : Option Int) (os : Option ℚ) : ℚ :=
  match om, os with
  | some m, some s => (m : ℚ) * 60 + s
  | _, _ => 0

/-- `parse_time_to_seconds` from the source: empty or "--" input is zero;
otherwise the string is quote-stripped, dots replaced by colons, split on
colons; with three or more segments the first three give h/m/s, with two
segments they give m/s, otherwise (or on a conversion error) zero. -/
def parse_time_to_seconds (time_str : String) : ℚ :=
  if time_str = "" ∨ time_str = "--" then 0
  else if 3 ≤ (timeParts time_str).length then
    hmsVal (pyIntOfList ((timeParts time_str).getD 0 []))
      (pyIntOfList ((timeParts time_str).getD 1 []))
      (pyFloatOfList ((timeParts time_str).getD 2 []))
  else if (timeParts time_str).length = 2 then
    msVal (pyIntOfList ((timeParts time_str).getD 0 []))
      (pyFloatOfList ((timeParts time_str).getD 1 []))
  else 0

/-- One or more groups of the separator followed by exactly three digits
(the repeated group of the thousands-separator regex). -/
def threeDigitGroups (sep : Char) : List Char → Bool
  | s :: a :: b :: c :: rest =>
    s == sep && a.isDigit && b.isDigit && c.isDigit &&
      (rest.isEmpty || threeDigitGroups sep rest)
  | _ => false

/-- Models the anchored regex match: one to three leading digits followed
by one or more groups of the separator and exactly three digits. -/
def thousandsPattern (sep : Char) (cs : List Char) : Bool :=
  decide (1 ≤ (cs.takeWhile Char.isDigit).length) &&
    decide ((cs.takeWhile Char.isDigit).length ≤ 3) &&
    threeDigitGroups sep (cs.dropWhile Char.isDigit)

/-- Index of the first occurrence of a character (length if absent). -/
def idxOfChar (c : Char) : List Char → Nat
  | [] => 0
  | x :: xs => if x = c then 0 else idxOfChar c xs + 1

/-- The separator-disambiguation cascade of `parse_number`, applied after
quote/space stripping.  The source's comparison of the two last-occurrence
positions is expressed as: the first occurrence of the dot in the
reversed list comes before the first occurrence of the comma (both
characters are present in this branch, so both indices are defined). -/
def sepNormalize (cs : List Char) : List Char :=
  if '.' ∈ cs ∧ ',' ∈ cs then
    if idxOfChar '.' cs.reverse < idxOfChar ',' cs.reverse then
      cs.filter (fun c => !(c == ','))
    else
      (cs.filter (fun c => !(c == '.'))).map (fun c => if c = ',' then '.' else c)
  else if thousandsPattern '.' cs then cs.filter (fun c => !(c == '.'))
  else if thousandsPattern ',' cs then cs.filter (fun c => !(c == ','))
  else cs.map (fun c => if c = ',' then '.' else c)

/-- `parse_number` from the source: empty or "--" is zero; quotes are
stripped, spaces and no-break spaces removed, the separator cascade
applied, and the result converted by `float`, with zero on failure. -/
def parse_number (value : String) : ℚ :=
  if value = "" ∨ value = "--" then 0
  else
    (pyFloatOfList (sepNormalize
      ((stripChar quoteChar value.data).filter (fun c => !(c == ' ' || c == nbsp))))).getD 0

/-- Modelled from the spec wording of the both-separators rule: the
separator occurring later in the string is the decimal mark (rewritten to
a dot), the other one is stripped as a thousands separator.  The other
branches follow the spec's remaining rules verbatim. -/
def sepNormalizeSpec (cs : List Char) : List Char :=
  if '.' ∈ cs ∧ ',' ∈ cs then
    (cs.filter (fun c =>
        !(c == (if idxOfChar '.' cs.reverse < idxOfChar ',' cs.reverse then ',' else '.')))).map
      (fun c =>
        if c = (if idxOfChar '.' cs.reverse < idxOfChar ',' cs.reverse then '.' else ',') then '.'
        else c)
  else if thousandsPattern '.' cs then cs.filter (fun c => !(c == '.'))
  else if thousandsPattern ',' cs then cs.filter (fun c => !(c == ','))
  else cs.map (fun c => if c = ',' then '.' else c)

/-- The specification-side reading of `parse_number`, built on
`sepNormalizeSpec`. -/
def parse_number_spec (value : String) : ℚ :=
  if value = "" ∨ value = "--" then 0
  else
    (pyFloatOfList (sepNormalizeSpec
      ((stripChar quoteChar value.data).filter (fun c => !(c == ' ' || c == nbsp))))).getD 0

/-- Insert a comma after every third character; applied to the reversed
digit string this models the thousands grouping of Python format specs. -/
def groupRev : List Char → List Char
  | a :: b :: c :: rest =>
    if rest.isEmpty then [a, b, c] else a :: b :: c :: ',' :: groupRev rest
  | l => l

/-- Decimal rendering of a natural number with comma thousands grouping. -/
def commaGroupNat (n : Nat) : String :=
  String.mk (groupRev (Nat.repr n).data.reverse).reverse

/-- Models Python comma-grouped formatting of an integer. -/
def commaGroupInt (n : Int) : String :=
  (if n < 0 then "-" else "") ++ commaGroupNat n.natAbs

/-- Models the final replacement of commas by spaces. -/
def commaToSpace (s : String) : String :=
  String.mk (s.data.map (fun c => if c = ',' then ' ' else c))

/-- Python `int()` applied to a number: truncation toward zero. -/
def pyTrunc (q : ℚ) : Int := if q < 0 then -⌊-q⌋ else ⌊q⌋

/-- Round to the nearest integer, ties to even — the rounding applied when
a float is formatted with a fixed number of decimals. -/
def roundHalfEven (q : ℚ) : Int :=
  if q - ⌊q⌋ < 1/2 then ⌊q⌋
  else if (1 : ℚ)/2 < q - ⌊q⌋ then ⌊q⌋ + 1
  else if ⌊q⌋ % 2 = 0 then ⌊q⌋ else ⌊q⌋ + 1

/-- Left-pad a digit string with zeros to length `d`. -/
def padZeros (d : Nat) (s : String) : String :=
  String.mk (List.replicate (d - s.length) '0') ++ s

/-- Models the Python fixed-point comma-grouped format of a float with
`d` decimal places (`d` positive). -/
def pyFormatFixed (q : ℚ) (d : Nat) : String :=
  (if roundHalfEven (q * (10 : ℚ) ^ d) < 0 then "-" else "") ++
    commaGroupNat ((roundHalfEven (q * (10 : ℚ) ^ d)).natAbs / 10 ^ d) ++ "." ++
    padZeros d (Nat.repr ((roundHalfEven (q * (10 : ℚ) ^ d)).natAbs % 10 ^ d))

/-- `format_number` from the source: fixed-point formatting for a positive
decimals count, otherwise truncating integer formatting; commas are then
replaced by spaces. -/
def format_number (num : ℚ) (decimals : Nat) : String :=
  commaToSpace (if 0 < decimals then pyFormatFixed num decimals
                else commaGroupInt (pyTrunc num))

/-- Python float modulo for a positive modulus. -/
def pyMod (a b : ℚ) : ℚ := a - b * ⌊a / b⌋

/-- `format_time` from the source: hours by floor division by 3600,
minutes by floor division of the remainder by 60. -/
def format_time (total_seconds : ℚ) : String :=
  Int.repr ⌊total_seconds / 3600⌋ ++ "h " ++
    Int.repr ⌊pyMod total_seconds 3600 / 60⌋ ++ "m"

/-- A calendar date as produced by the datetime parser. -/
structure PyDate where
  year : Int
  month : Nat
  day : Nat
deriving DecidableEq

/-- One CSV activity row (the columns the program reads); the date cell is
modelled already parsed. -/
structure Row where
  typAktivity : String
  datum : PyDate
  cas : String
  vzdalenost : String
  celkovyVystup : String
  kalorie : String
  kroky : String
deriving DecidableEq

/-- The statistics record assembled by `load_and_analyze_data`. -/
structure Stats where
  total_activities : Nat
  most_frequent_activity : String
  most_frequent_count : Nat
  activity_breakdown : List (String × Nat)
  total_time_seconds : ℚ
  total_time : String
  total_distance : ℚ
  total_elevation : ℚ
  total_calories : ℚ
  total_steps : ℚ
  year : Int
deriving DecidableEq

/-- Models Python `str.lower` (ASCII case folding, which covers the
letters of the tokens compared in the source). -/
def pyLower (s : String) : String := String.mk (s.data.map Char.toLower)

/-- Whether the first list starts the second one. -/
def hasPref : List Char → List Char → Bool
  | [], _ => true
  | _ :: _, [] => false
  | a :: as, b :: bs => a == b && hasPref as bs

/-- Whether the first list occurs contiguously inside the second one. -/
def hasSub (needle : List Char) : List Char → Bool
  | [] => needle.isEmpty
  | c :: cs => hasPref needle (c :: cs) || hasSub needle cs

/-- Models the Python substring test on strings. -/
def pyContains (haystack needle : String) : Bool := hasSub needle.data haystack.data

/-- `calc_distance` from the source: the parsed distance, divided by 1000
when the lowercased activity type contains "plav" or "swim". -/
def calc_distance (row : Row) : ℚ :=
  if pyContains (pyLower row.typAktivity) "plav" || pyContains (pyLower row.typAktivity) "swim"
  then parse_number row.vzdalenost / 1000
  else parse_number row.vzdalenost

/-- The distance aggregation: sum of `calc_distance` over all rows. -/
def totalDistance (rows : List Row) : ℚ := (rows.map calc_distance).sum

/-- Number of occurrences of a value in a list. -/
def countOcc (xs : List String) (a : String) : Nat := (xs.filter (fun x => x == a)).length

/-- Helper for `dedupFirst`; the second argument accumulates seen values. -/
def dedupFirstAux : List String → List String → List String
  | [], _ => []
  | x :: xs, seen =>
    if x ∈ seen then dedupFirstAux xs seen else x :: dedupFirstAux xs (x :: seen)

/-- Distinct values of a list in first-seen order. -/
def dedupFirst (xs : List String) : List String := dedupFirstAux xs []

/-- Insert into a count-descending list, before the first entry with a
smaller-or-equal count (so earlier first-seen entries stay first on ties). -/
def insertByCount (p : String × Nat) : List (String × Nat) → List (String × Nat)
  | [] => [p]
  | q :: qs => if q.2 ≤ p.2 then p :: q :: qs else q :: insertByCount p qs

/-- Stable insertion sort by descending count. -/
def sortCountDesc : List (String × Nat) → List (String × Nat)
  | [] => []
  | p :: ps => insertByCount p (sortCountDesc ps)

/-- Models the value-counting step: occurrence counts per distinct value,
sorted by count descending, first-seen order among ties. -/
def valueCounts (xs : List String) : List (String × Nat) :=
  sortCountDesc ((dedupFirst xs).map (fun a => (a, countOcc xs a)))

/-- The year filter at the top of `load_and_analyze_data`. -/
def applyYearFilter (rows : List Row) : Option Int → List Row
  | some y => rows.filter (fun r => r.datum.year = y)
  | none => rows

/-- `load_and_analyze_data` from the source.  The current calendar year is
passed explicitly; a `none` result models the `IndexError` raised by the
most-frequent-activity lookup when the (possibly filtered) frame is
empty, which aborts the run before a record is produced. -/
def load_and_analyze_data (rows : List Row) (year_filter : Option Int)
    (current_year : Int) : Option Stats :=
  match (valueCounts ((applyYearFilter rows year_filter).map (fun r => r.typAktivity))).head? with
  | none => none
  | some p =>
    some (Stats.mk
      (applyYearFilter rows year_filter).length
      p.1
      p.2
      (valueCounts ((applyYearFilter rows year_filter).map (fun r => r.typAktivity)))
      (((applyYearFilter rows year_filter).map (fun r => parse_time_to_seconds r.cas)).sum)
      (format_time (((applyYearFilter rows year_filter).map
        (fun r => parse_time_to_seconds r.cas)).sum))
      (totalDistance (applyYearFilter rows year_filter))
      (((applyYearFilter rows year_filter).map (fun r => parse_number r.celkovyVystup)).sum)
      (((applyYearFilter rows year_filter).map (fun r => parse_number r.kalorie)).sum)
      (((applyYearFilter rows year_filter).map (fun r => parse_number r.kroky)).sum)
      (year_filter.getD current_year))

/-- A swimming row: activity type "Plavání", distance cell "1500" metres. -/
def plavRow : Row := Row.mk "Plavání" (PyDate.mk 2024 1 6) "--" "1500" "--" "--" "--"

/-- A 2023 running row used in concrete instantiations. -/
def runRow2023 : Row := Row.mk "Běh" (PyDate.mk 2023 5 1) "1:00:00" "10,5" "120" "600" "8000"

/-- A 2024 cycling row used in concrete instantiations. -/
def rideRow2024 : Row := Row.mk "Jízda na kole" (PyDate.mk 2024 6 2) "2:00:00" "40" "300" "900" "0"

/-- The statistics record produced for the two sample rows under the 2023
year filter. -/
def stats2023 : Stats :=
  Stats.mk 1 "Běh" 1 [("Běh", 1)] 3600 "1h 0m" (21/2) 120 600 8000 2023

/-! ## Helper lemmas -/

theorem map_if_self (l : List Char) (d : Char) :
    l.map (fun c => if c = d then d else c) = l := by
  induction l with
  | nil => rfl
  | cons a t ih =>
    simp only [List.map_cons, ih]
    congr 1
    split_ifs with h
    · exact h.symm
    · rfl

theorem sepNormalize_eq_spec (cs : List Char) : sepNormalize cs = sepNormalizeSpec cs := by
  unfold sepNormalize sepNormalizeSpec
  split_ifs with h1 h2
  · exact (map_if_self _ '.').symm
  · rfl
  · rfl
  · rfl
  · rfl

theorem hmsVal_none_hours (om : Option Int) (os : Option ℚ) : hmsVal none om os = 0 := rfl

theorem hmsVal_none_minutes (oh : Option Int) (os : Option ℚ) : hmsVal oh none os = 0 := by
  cases oh <;> rfl

theorem hmsVal_none_seconds (oh om : Option Int) : hmsVal oh om none = 0 := by
  cases oh <;> cases om <;> rfl

theorem msVal_none_minutes (os : Option ℚ) : msVal none os = 0 := rfl

theorem msVal_none_seconds (om : Option Int) : msVal om none = 0 := by
  cases om <;> rfl

theorem pyTrunc_intCast (n : Int) : pyTrunc (n : ℚ) = n := by
  unfold pyTrunc
  split_ifs with h
  · have e : (-(n : ℚ)) = ((-n : Int) : ℚ) := by push_cast; ring
    rw [e, Int.floor_intCast]
    omega
  · exact Int.floor_intCast n

/-! ## Claim theorems -/

unseal Rat.add Rat.mul Rat.inv Rat.sub Rat.ofScientific in
/-- C1: `parse_number` applies the separator-disambiguation rules in
order (it agrees with the rule-by-rule specification reading
`parse_number_spec` on every input), and on the specified examples:
"5.972" parses to 5972, "1.234.567" to 1234567, "2,738" to 2738,
"1,200.5" to 1200.5, "1.200,5" to 1200.5, and "3,5" to 3.5. -/
theorem c1_parse_number_rules :
    (∀ s : String, parse_number s = parse_number_spec s) ∧
    parse_number "5.972" = 5972 ∧
    parse_number "1.234.567" = 1234567 ∧
    parse_number "2,738" = 2738 ∧
    parse_number "1,200.5" = 1200.5 ∧
    parse_number "1.200,5" = 1200.5 ∧
    parse_number "3,5" = 3.5 ∧
    parse_number "1,234,567.89" = 1234567.89 ∧
    parse_number "1.234.567,89" = 1234567.89 := by
  refine ⟨?_, by decide, by decide, by decide, by decide, by decide, by decide, by decide,
    by decide⟩
  intro s
  unfold parse_number parse_number_spec
  split_ifs with h
  · rfl
  · rw [sepNormalize_eq_spec]

unseal Rat.add Rat.mul Rat.inv Rat.sub Rat.ofScientific in
/-- C2 (evaluation at the failing input): on "0:0:1.5" the code returns 1,
not 1.5 — the dot is replaced by a colon before splitting, so the
fractional second becomes a fourth segment and is dropped; the plain
H:M:S form and the empty and placeholder inputs behave as specified. -/
theorem c2_fractional_second_dropped :
    parse_time_to_seconds "0:0:1.5" = 1 ∧
    (1 : ℚ) ≠ 1.5 ∧
    parse_time_to_seconds "2:30:05" = 9005 ∧
    parse_time_to_seconds "--" = 0 ∧
    parse_time_to_seconds "" = 0 := by
  refine ⟨by decide, by decide, by decide, by decide, by decide⟩

unseal Rat.add Rat.mul Rat.inv Rat.sub in
/-- C3: rows whose lowercased activity type contains "plav" or "swim"
contribute their parsed distance divided by 1000, all other rows
contribute it unchanged; a "Plavání" row with distance "1500" contributes
exactly 1.5 to the distance total. -/
theorem c3_swim_distance (r : Row) (rs : List Row) :
    ((pyContains (pyLower r.typAktivity) "plav" ||
        pyContains (pyLower r.typAktivity) "swim") = true →
      calc_distance r = parse_number r.vzdalenost / 1000) ∧
    ((pyContains (pyLower r.typAktivity) "plav" ||
        pyContains (pyLower r.typAktivity) "swim") = false →
      calc_distance r = parse_number r.vzdalenost) ∧
    calc_distance plavRow = 3/2 ∧
    totalDistance (plavRow :: rs) = 3/2 + totalDistance rs := by
  refine ⟨?_, ?_, by decide, ?_⟩
  · intro h
    simp [calc_distance, h]
  · intro h
    simp [calc_distance, h]
  · simp only [totalDistance, List.map_cons, List.sum_cons]
    rw [show calc_distance plavRow = (3 : ℚ)/2 from by decide]

unseal Rat.add Rat.mul Rat.inv Rat.sub in
/-- Witness for C3, instantiating the conditional parts at the swimming
and running sample rows. -/
theorem c3_swim_distance_witness :
    calc_distance plavRow = parse_number plavRow.vzdalenost / 1000 ∧
    calc_distance runRow2023 = parse_number runRow2023.vzdalenost ∧
    totalDistance (plavRow :: []) = 3/2 + totalDistance [] :=
  ⟨(c3_swim_distance plavRow []).1 (by decide),
   (c3_swim_distance runRow2023 []).2.1 (by decide),
   (c3_swim_distance plavRow []).2.2.2⟩

/-- C4: with a year filter the aggregation runs on exactly the rows whose
date lies in that calendar year (and the record's year is the filter
value); without a filter no row is removed and the record's year is the
current calendar year. -/
theorem c4_year_filter :
    (∀ (rows : List Row) (y cy : Int),
      load_and_analyze_data rows (some y) cy =
        load_and_analyze_data (rows.filter (fun r => r.datum.year = y)) none y) ∧
    (∀ (rows : List Row) (y cy : Int) (s : Stats),
      load_and_analyze_data rows (some y) cy = some s →
        s.total_activities = (rows.filter (fun r => r.datum.year = y)).length ∧ s.year = y) ∧
    (∀ (rows : List Row) (cy : Int) (s : Stats),
      load_and_analyze_data rows none cy = some s →
        s.total_activities = rows.length ∧ s.year = cy) := by
  refine ⟨fun rows y cy => rfl, ?_, ?_⟩
  · intro rows y cy s h
    unfold load_and_analyze_data at h
    cases hh : (valueCounts ((applyYearFilter rows (some y)).map (fun r => r.typAktivity))).head? with
    | none => rw [hh] at h; simp at h
    | some p =>
      rw [hh] at h
      obtain rfl := Option.some.inj h
      exact ⟨rfl, rfl⟩
  · intro rows cy s h
    unfold load_and_analyze_data at h
    cases hh : (valueCounts ((applyYearFilter rows none).map (fun r => r.typAktivity))).head? with
    | none => rw [hh] at h; simp at h
    | some p =>
      rw [hh] at h
      obtain rfl := Option.some.inj h
      exact ⟨rfl, rfl⟩

unseal Rat.add Rat.mul Rat.inv Rat.sub in
/-- Witness for C4, applying the filtered-count part to two concrete rows
dated 2023 and 2024 under the 2023 filter. -/
theorem c4_year_filter_witness :
    stats2023.total_activities =
      ([runRow2023, rideRow2024].filter (fun r => r.datum.year = 2023)).length ∧
    stats2023.year = 2023 :=
  c4_year_filter.2.1 [runRow2023, rideRow2024] 2023 2025 stats2023 (by decide)

unseal Rat.add Rat.mul Rat.inv Rat.sub in
/-- C5: both cell parsers are total functions into the numbers; empty,
placeholder and unparsable inputs evaluate to zero. -/
theorem c5_parsers_total_zero_default :
    (∀ s : String, ∃ q : ℚ, parse_number s = q) ∧
    (∀ s : String, ∃ q : ℚ, parse_time_to_seconds s = q) ∧
    parse_number "" = 0 ∧ parse_number "--" = 0 ∧
    parse_number "abc" = 0 ∧ parse_number "1.2.3" = 0 ∧
    parse_time_to_seconds "" = 0 ∧ parse_time_to_seconds "--" = 0 ∧
    parse_time_to_seconds "abc" = 0 ∧ parse_time_to_seconds "1:xx:05" = 0 := by
  refine ⟨fun s => ⟨parse_number s, rfl⟩, fun s => ⟨parse_time_to_seconds s, rfl⟩,
    by decide, by decide, by decide, by decide, by decide, by decide, by decide, by decide⟩

/-- C6: if the (possibly filtered) source has zero rows, the
most-frequent-activity lookup fails and no statistics record is
produced. -/
theorem c6_empty_source_fatal :
    (∀ (rows : List Row) (y cy : Int),
      rows.filter (fun r => r.datum.year = y) = [] →
        load_and_analyze_data rows (some y) cy = none) ∧
    (∀ cy : Int, load_and_analyze_data ([] : List Row) none cy = none) := by
  constructor
  · intro rows y cy h
    have h2 : applyYearFilter rows (some y) = [] := h
    unfold load_and_analyze_data
    rw [h2]
    rfl
  · intro cy
    rfl

/-- Witness for C6: a 2024-dated row filtered for 2023 leaves zero rows
and no record is produced. -/
theorem c6_empty_source_fatal_witness :
    load_and_analyze_data [rideRow2024] (some 2023) 0 = none :=
  c6_empty_source_fatal.1 [rideRow2024] 2023 0 (by decide)

unseal Rat.add Rat.mul Rat.inv Rat.sub Rat.ofScientific in
/-- C7: `format_number` groups digits with a space as thousands separator,
and with one decimal place it rounds rather than truncates. -/
theorem c7_format_number_examples :
    format_number 1234567 0 = "1 234 567" ∧
    format_number 1234.56 1 = "1 234.6" := by
  refine ⟨by decide, by decide⟩

unseal Rat.add Rat.mul Rat.inv Rat.sub in
/-- C8: `format_time t` renders floor(t / 3600) hours and
floor((t mod 3600) / 60) minutes (minutes truncated, not rounded). -/
theorem c8_format_time_fields :
    (∀ t : ℚ, 0 ≤ t →
      format_time t =
        Int.repr ⌊t / 3600⌋ ++ "h " ++ Int.repr ⌊(t - 3600 * ⌊t / 3600⌋) / 60⌋ ++ "m") ∧
    format_time 5400 = "1h 30m" ∧
    format_time 59 = "0h 0m" := by
  refine ⟨fun t ht => rfl, by decide, by decide⟩

unseal Rat.add Rat.mul Rat.inv Rat.sub in
/-- Witness for C8 at 5400 seconds. -/
theorem c8_format_time_fields_witness :
    format_time 5400 =
      Int.repr ⌊(5400 : ℚ) / 3600⌋ ++ "h " ++
        Int.repr ⌊((5400 : ℚ) - 3600 * ⌊(5400 : ℚ) / 3600⌋) / 60⌋ ++ "m" :=
  c8_format_time_fields.1 5400 (by decide)

unseal Rat.add Rat.mul Rat.inv Rat.sub in
/-- C9 counterexample: "1:2:3:4:5" has five segments — not a valid H:M:S,
H:M:S.s or M:S form — yet the parser returns 3723, not zero. -/
theorem c9_counterexample_extra_segments :
    parse_time_to_seconds "1:2:3:4:5" = 3723 ∧ parse_time_to_seconds "1:2:3:4:5" ≠ 0 := by
  refine ⟨by decide, by decide⟩

/-- C9 (amended): a single-segment string yields zero, and any failing
numeric conversion among the segments actually read (the first three when
there are at least three, both when there are exactly two) yields zero;
with at least three segments only the first three are read, so extra
trailing segments do not force a zero result. -/
theorem c9_malformed_duration :
    (∀ s : String, (timeParts s).length = 1 → parse_time_to_seconds s = 0) ∧
    (∀ s : String, 3 ≤ (timeParts s).length →
      (pyIntOfList ((timeParts s).getD 0 []) = none ∨
       pyIntOfList ((timeParts s).getD 1 []) = none ∨
       pyFloatOfList ((timeParts s).getD 2 []) = none) →
      parse_time_to_seconds s = 0) ∧
    (∀ s : String, (timeParts s).length = 2 →
      (pyIntOfList ((timeParts s).getD 0 []) = none ∨
       pyFloatOfList ((timeParts s).getD 1 []) = none) →
      parse_time_to_seconds s = 0) ∧
    (∀ (s : String) (H M : Int) (S : ℚ), 3 ≤ (timeParts s).length →
      pyIntOfList ((timeParts s).getD 0 []) = some H →
      pyIntOfList ((timeParts s).getD 1 []) = some M →
      pyFloatOfList ((timeParts s).getD 2 []) = some S →
      parse_time_to_seconds s = (H : ℚ) * 3600 + (M : ℚ) * 60 + S) := by
  refine ⟨?_, ?_, ?_, ?_⟩
  · intro s hlen
    unfold parse_time_to_seconds
    split_ifs with h1 h2 h3
    · rfl
    · exact absurd h2 (by omega)
    · exact absurd h3 (by omega)
    · rfl
  · intro s hlen hnone
    unfold parse_time_to_seconds
    split_ifs with h1
    · rfl
    · rcases hnone with h | h | h
      · rw [h, hmsVal_none_hours]
      · rw [h, hmsVal_none_minutes]
      · rw [h, hmsVal_none_seconds]
  · intro s hlen hnone
    unfold parse_time_to_seconds
    split_ifs with h1 h2
    · rfl
    · exact absurd h2 (by omega)
    · rcases hnone with h | h
      · rw [h, msVal_none_minutes]
      · rw [h, msVal_none_seconds]
  · intro s H M S hlen h0 h1 h2
    unfold parse_time_to_seconds
    split_ifs with ha
    · rcases ha with rfl | rfl
      · exact absurd hlen (by decide)
      · exact absurd hlen (by decide)
    · rw [h0, h1, h2]
      rfl

unseal Rat.add Rat.mul Rat.inv Rat.sub in
/-- Witness for C9 on concrete malformed and well-formed inputs. -/
theorem c9_malformed_duration_witness :
    parse_time_to_seconds "5" = 0 ∧
    parse_time_to_seconds "a:b:c" = 0 ∧
    parse_time_to_seconds "x:5" = 0 ∧
    parse_time_to_seconds "1:2:3" = ((1 : Int) : ℚ) * 3600 + ((2 : Int) : ℚ) * 60 + 3 :=
  ⟨c9_malformed_duration.1 "5" (by decide),
   c9_malformed_duration.2.1 "a:b:c" (by decide) (Or.inl (by decide)),
   c9_malformed_duration.2.2.1 "x:5" (by decide) (Or.inl (by decide)),
   c9_malformed_duration.2.2.2 "1:2:3" 1 2 3 (by decide) (by decide) (by decide) (by decide)⟩

unseal Rat.add Rat.mul Rat.inv Rat.sub Rat.ofScientific in
/-- C10: with zero decimals, `format_number` truncates toward zero before
grouping — formatting any value gives the same string as formatting its
integer part — and the fractional part is discarded, not rounded. -/
theorem c10_format_number_truncates :
    (∀ x : ℚ, format_number x 0 = format_number ((pyTrunc x : Int) : ℚ) 0) ∧
    format_number 1234.9 0 = "1 234" := by
  constructor
  · intro x
    show commaToSpace (commaGroupInt (pyTrunc x)) =
      commaToSpace (commaGroupInt (pyTrunc ((pyTrunc x : Int) : ℚ)))
    rw [pyTrunc_intCast]
  · decide

end Garmin
